import Mathlib

/-!
Verification of the Forecast & Insight Pipeline of the steam-discount-forecast
repository, as a shallow embedding in Lean 4.

The embedding follows the Python sources:
  * `src/steam_sale/models/predictor.py`  (Horizon, ItadClient mock, ModelService)
  * `src/steam_sale/insights.py`          (NewsClient relevance filter, InsightService)
  * `src/steam_sale/feature_builder.py`   (FeatureBuilder)

Modelling conventions:
  * Python numbers (int/float) are modelled as `Rat`; all numeric comparisons
    and arithmetic used by the code are exact on the inputs the claims quantify
    over (no NaN/inf values are representable; the code paths the claims touch
    treat a float parse failure and an unrepresentable float identically, by
    falling back to a default).
  * Python `dict`s are association lists with unique keys in insertion order;
    lookup takes the first matching key.
  * `raise`/`try`/`except` is modelled with `Except`: a raised Python exception
    is an `Except.error` value.
  * Opaquely loaded classifier artifacts are modelled as abstract score
    functions `List Rat → Rat` (the `predict_proba` class-1 probability).
-/

/-- A Python value stored in a feature map handed to `ModelService._vectorize`
(predictor.py).  `num x` is a value for which `float(value)` succeeds and
yields `x` (ints, floats, numeric strings); `none` is Python `None`;
`bad r` is any other value, for which `float(value)` raises `ValueError` or
`TypeError` — it carries its `repr` string `r`, used in the error message. -/
inductive PyVal where
  | num (x : Rat)
  | none
  | bad (r : String)
deriving DecidableEq, Repr

/-- A feature map: Python `Dict[str, Any]` of feature values, as an
association list with unique keys in insertion order. -/
def FeatureMap : Type := List (String × PyVal)

/-- Python `name in features` / `features[name]` combined: look up a key,
`Option.none` when the key is absent. -/
def fmGet (m : FeatureMap) (k : String) : Option PyVal :=
  match List.find? (fun p => p.1 == k) m with
  | Option.some p => Option.some p.2
  | Option.none => Option.none

/-- predictor.py line 28: `Horizon.THIRTY = "30d"`. -/
def Horizon.THIRTY : String := "30d"

/-- predictor.py line 29: `Horizon.SIXTY = "60d"`. -/
def Horizon.SIXTY : String := "60d"

/-- predictor.py lines 31-39: `Horizon.is_valid`. -/
def Horizon.is_valid (value : String) : Bool :=
  if value = Horizon.THIRTY then true
  else if value = Horizon.SIXTY then true
  else false

/-- The payload of a `BadRequestError` raised in predictor.py, one constructor
per `raise BadRequestError(...)` site, carrying the data interpolated into the
message f-string:
  * `invalidHorizon h`     — line 196, `f"Invalid horizon: {h}. ..."`;
  * `nonNumericFeature n r` — line 170, `f"Feature {n} must be numeric. Got {r}"`;
  * `missingFeatures ns`   — line 174, `f"Missing required features: {ns}"`. -/
inductive BadRequestPayload where
  | invalidHorizon (horizon : String)
  | nonNumericFeature (name : String) (got : String)
  | missingFeatures (names : List String)
deriving DecidableEq, Repr

/-- The exceptions raised by `ModelService` (exceptions.py): both
`ModelNotLoadedError` and `BadRequestError` derive `SteamSaleError`. -/
inductive PredError where
  | modelNotLoaded (msg : String)
  | badRequest (p : BadRequestPayload)
deriving DecidableEq, Repr

/-- The Python exception class of a raised `PredError` (exceptions.py): every
`BadRequestPayload`, whichever raise site produced it, is an instance of the
single class `BadRequestError`. -/
def PredError.pyClass : PredError → String
  | .modelNotLoaded _ => "ModelNotLoadedError"
  | .badRequest _ => "BadRequestError"

/-- predictor.py lines 57-77: `ItadClient.enrich_features` — the mock returns
`features` unchanged on every path (the enabled branch only executes `pass`,
and the disabled branch returns `features` directly). -/
def ItadClient.enrich_features (features : FeatureMap) : FeatureMap :=
  features

/-- predictor.py lines 79-90: the `ModelService` dataclass.  The two loaded
classifiers are abstract score functions (class-1 `predict_proba`); a field is
`Option.none` when the artifact has not been loaded. -/
structure ModelService where
  model_30d : Option (List Rat → Rat) := Option.none
  model_60d : Option (List Rat → Rat) := Option.none
  feature_names : Option (List String) := Option.none
  default_threshold : Rat := 0.5

/-- The loop body of `ModelService._vectorize` (predictor.py lines 155-170):
walk the expected feature names in schema order, accumulating the numeric
vector and the missing names; raise `BadRequestError` at the first
non-numeric value.  A key absent from the map and a key mapped to `None` both
make `value` `None` (lines 156-159), hence both land in `missing`. -/
def vectorizeLoop (features : FeatureMap) :
    List String → List Rat → List String → Except PredError (List Rat × List String)
  | [], vector, missing => Except.ok (vector, missing)
  | name :: rest, vector, missing =>
    match fmGet features name with
    | Option.none => vectorizeLoop features rest vector (missing ++ [name])
    | Option.some PyVal.none => vectorizeLoop features rest vector (missing ++ [name])
    | Option.some (PyVal.num x) => vectorizeLoop features rest (vector ++ [x]) missing
    | Option.some (PyVal.bad r) =>
      Except.error (PredError.badRequest (BadRequestPayload.nonNumericFeature name r))

/-- predictor.py lines 140-179: `ModelService._vectorize`.  `if not
self.feature_names` is Python truthiness: both `None` and the empty list raise
`ModelNotLoadedError`.  After the loop, a non-empty `missing` list raises one
`BadRequestError` listing all missing names. -/
def ModelService.vectorize (st : ModelService) (features : FeatureMap) :
    Except PredError (List Rat) :=
  match st.feature_names with
  | Option.none =>
    Except.error (PredError.modelNotLoaded "Feature names are not loaded. Did you call load()?")
  | Option.some names =>
    if names.isEmpty then
      Except.error (PredError.modelNotLoaded "Feature names are not loaded. Did you call load()?")
    else
      match vectorizeLoop features names [] [] with
      | Except.error e => Except.error e
      | Except.ok (vector, missing) =>
        if missing.length > 0 then
          Except.error (PredError.badRequest (BadRequestPayload.missingFeatures missing))
        else
          Except.ok vector

/-- The result dictionary built by `ModelService.predict`
(predictor.py lines 242-248). -/
structure PredictResult where
  appid : Int
  horizon : String
  score : Rat
  threshold : Rat
  will_discount : Bool
deriving DecidableEq, Repr

/-- predictor.py lines 181-250: `ModelService.predict`.
Order of checks follows the source: horizon validity first (raising
`BadRequestError`, line 196), then model availability, then ITAD enrichment
(identity in the mock), then vectorization, then model selection and scoring.
The `hasattr(model, "predict_proba")` guard is always satisfied in the model,
where a loaded classifier is by construction a score function. -/
def ModelService.predict (st : ModelService) (horizon : String) (appid : Int)
    (features : FeatureMap) (threshold : Option Rat) : Except PredError PredictResult :=
  if Horizon.is_valid horizon = false then
    Except.error (PredError.badRequest (BadRequestPayload.invalidHorizon horizon))
  else
    match st.model_30d, st.model_60d with
    | Option.some m30, Option.some m60 =>
      let features := ItadClient.enrich_features features
      match st.vectorize features with
      | Except.error e => Except.error e
      | Except.ok x =>
        let model := if horizon = Horizon.THIRTY then m30 else m60
        let score := model x
        let cut := match threshold with
          | Option.some t => t
          | Option.none => st.default_threshold
        let will_discount := if score ≥ cut then true else false
        Except.ok
          { appid := appid, horizon := horizon, score := score,
            threshold := cut, will_discount := will_discount }
    | _, _ =>
      Except.error (PredError.modelNotLoaded "Models not loaded. Call load() first.")

/-- predictor.py line 253: the process-wide service instance, created with
the dataclass field defaults (in particular `default_threshold = 0.5`). -/
def model_service : ModelService := {}

/-! ## insights.py — NewsClient relevance filter and InsightService -/

/-- `needle in haystack` on Python strings: substring containment, via list
infix on the character data. -/
def strContains (needle haystack : String) : Bool :=
  decide (needle.data <:+: haystack.data)

/-- Python `s.lower()`, character by character (exact on ASCII, which is all
the fixed keyword lists use). -/
def pyLower (s : String) : String :=
  ⟨s.data.map Char.toLower⟩

/-- Drop characters satisfying `p` from both ends of a character list —
the core of Python `str.strip`. -/
def stripEnds (p : Char → Bool) (cs : List Char) : List Char :=
  ((cs.dropWhile p).reverse.dropWhile p).reverse

/-- Python `s.strip()`: strip whitespace from both ends. -/
def pyStripWs (s : String) : String :=
  ⟨stripEnds Char.isWhitespace s.data⟩

/-- insights.py lines 46-64: the fixed sale/discount keyword list. -/
def saleKeywords : List String :=
  ["steam sale", "sale", "discount", "deal", "bundle", "promo", "promotion",
   "off", "% off", "price cut", "price drop", "clearance", "flash sale",
   "limited time", "special offer", "holiday sale", "black friday"]

/-- insights.py lines 26-69: `NewsClient._is_relevant_article`.
`if not title` is string truthiness (empty string); the game-name branch
requires the lowered, stripped name to be non-empty (`if game_lower and ...`);
otherwise a plain substring test of each keyword against the lowered title. -/
def isRelevantArticle (title : String) (game_name : String) : Bool :=
  if title = "" then false
  else
    let title_lower := pyLower title
    let game_lower := pyStripWs (pyLower game_name)
    if game_lower ≠ "" ∧ strContains game_lower title_lower then true
    else if saleKeywords.any (fun word => strContains word title_lower) then true
    else false

/-- One article dictionary assembled by `NewsClient.fetch_game_news`
(insights.py lines 131-135); `source`/`url` may be Python `None`. -/
structure NewsItem where
  title : String
  source : Option String
  url : Option String
deriving DecidableEq, Repr

/-- The `InsightService` state (insights.py lines 148-190) together with the
outcomes of its external collaborators for the call under consideration:
  * `openai_enabled`        — the flag set in `__post_init__`;
  * `openai_client_present` — both `_openai_client` and `_openai_model` set;
  * `openai_raw`            — the text extracted from the generative
    response; `Option.none` models a raised exception during the call or a
    malformed response (`response.output[0].content[0].text` failing);
  * `news_enabled`          — `news_client.is_enabled()`;
  * `news_fetch`            — the list returned by `fetch_game_news`
    (already `[]` on any fetch failure, per lines 100-145). -/
structure InsightService where
  openai_enabled : Bool
  openai_client_present : Bool
  openai_raw : Option String
  news_enabled : Bool
  news_fetch : List NewsItem

/-- Python `str.splitlines` on newline-delimited text: split a character list
at every newline character. -/
def splitAtNewlines : List Char → List (List Char)
  | [] => [[]]
  | c :: rest =>
    let r := splitAtNewlines rest
    if c = '\n' then [] :: r
    else
      match r with
      | [] => [[c]]
      | h :: t => (c :: h) :: t

/-- Python `line.strip("•*- ").strip()` (insights.py line 469): strip bullet
markers, then whitespace, from both ends of one line. -/
def stripBulletLine (cs : List Char) : String :=
  ⟨stripEnds Char.isWhitespace
    (stripEnds (fun c => ['•', '*', '-', ' '].contains c) cs)⟩

/-- insights.py lines 468-473: parse a generative response into bullets —
split into lines, keep lines that are non-blank, strip leading/trailing
bullet markers and whitespace, keep non-empty results, take at most 3. -/
def parseBullets (raw : String) : List String :=
  let lines := ((splitAtNewlines raw.data).filter
      (fun line => stripEnds Char.isWhitespace line ≠ [])).map stripBulletLine
  (lines.filter (fun ln => ln ≠ "")).take 3

/-- insights.py lines 394-474: `InsightService._build_openai_summary_combined`.
Returns `[]` when the client or model handle is missing (line 409) or when the
response text cannot be extracted (lines 463-466); otherwise the parsed
bullets.  The prompt construction does not influence the returned value and is
not modelled. -/
def buildOpenaiSummaryCombined (st : InsightService) : List String :=
  if st.openai_client_present = false then []
  else
    match st.openai_raw with
    | Option.none => []
    | Option.some raw => parseBullets raw

/-- insights.py lines 313-329: the guarded generative branch of
`build_combined_insights` — bullets from the generative collaborator when
`openai_enabled`, `[]` otherwise; an exception inside the call also yields
`[]` (modelled by `openai_raw = Option.none`). -/
def combinedGenerativeBullets (st : InsightService) : List String :=
  if st.openai_enabled then buildOpenaiSummaryCombined st else []

/-- insights.py lines 349-392: `InsightService._fallback_combined_bullets`.
Three fixed-template bullets chosen from the two scores (as percentages) and
the two decisions; `bullets[:3]` at the end. -/
def fallbackCombinedBullets (score_30 score_60 : Rat) (will_30 will_60 : Bool) :
    List String :=
  let p30 := score_30 * 100
  let p60 := score_60 * 100
  let b1 :=
    if p30 < 20 then "Low chance of a discount in the next 30 days."
    else if p30 > 60 then "Strong chance of a discount within the next 30 days."
    else "Some chance of a discount in the next 30 days, but not high-confidence."
  let b2 :=
    if p60 < 30 then "Even over 60 days, a meaningful discount looks unlikely."
    else if p60 > 60 then "Within 60 days, a discount becomes quite plausible based on similar titles."
    else "Over 60 days, odds improve somewhat but remain uncertain."
  let b3 :=
    if will_30 || will_60 then
      "If you’re price-sensitive and can wait, holding off may be reasonable; otherwise buying near launch is still defensible."
    else
      "If you want to play soon, buying at or near launch is reasonable; waiting solely for a big discount may not pay off quickly."
  [b1, b2, b3].take 3

/-- insights.py lines 492-585: `InsightService._extract_contextual_factors`.
Each rule family contributes at most one string; `int(...)` coercion failures
(`None` or non-numeric values) skip the family.  Python `int()` on a float
truncates toward zero, on `None` or a non-numeric object raises (caught). -/
def pyIntOfVal : Option PyVal → Option Int
  | Option.some (PyVal.num x) => Option.some (if x < 0 then -((-x).floor) else x.floor)
  | _ => Option.none

/-- Python `features.get(k) == 1` for the one-hot publisher bins
(insights.py lines 519-532): never raises; true only for the numeric value 1. -/
def valEqOne : Option PyVal → Bool
  | Option.some (PyVal.num x) => x == 1
  | _ => false

/-- The factor-family evaluation of `_extract_contextual_factors`
(insights.py lines 492-585), in source order. -/
def extractContextualFactors (features : FeatureMap) : List String :=
  let f1 :=
    match fmGet features "release_year" with
    | Option.none => []
    | Option.some PyVal.none => []
    | Option.some v =>
      match pyIntOfVal (Option.some v) with
      | Option.none => []
      | Option.some year =>
        if year ≥ 2024 then
          ["This is a new or upcoming title; deep discounts right at or shortly after release are less common."]
        else []
  let f2 :=
    if valEqOne (fmGet features "publisher_size_bin__Major (>50)") then
      ["Published by a major publisher; they rarely offer big launch discounts, but frequently participate in major Steam sale events."]
    else if valEqOne (fmGet features "publisher_size_bin__Large (16–50)") then
      ["Published by a large publisher; launch discounts are possible but usually modest."]
    else if valEqOne (fmGet features "publisher_size_bin__Medium (6–15)") then
      ["Published by a mid-sized publisher; they sometimes use launch-window promos to boost visibility."]
    else if valEqOne (fmGet features "publisher_size_bin__Small (≤5)") then
      ["Published by a smaller publisher; they may be more flexible with early discounts to attract players."]
    else []
  let f3 :=
    match fmGet features "early_access" with
    | Option.none => []
    | Option.some PyVal.none => []
    | Option.some v =>
      match pyIntOfVal (Option.some v) with
      | Option.none => []
      | Option.some ea =>
        if ea = 1 then
          ["Launching in Early Access; pricing and discounts can be more experimental early on."]
        else []
  let f4 :=
    match fmGet features "franchise_count_prev" with
    | Option.none => []
    | Option.some PyVal.none => []
    | Option.some v =>
      match pyIntOfVal (Option.some v) with
      | Option.none => []
      | Option.some fcount =>
        if fcount ≥ 3 then
          ["Part of an established franchise; launch or early bundles and promo discounts are more common."]
        else []
  let f5 :=
    let g := fun k => pyIntOfVal (Option.some ((fmGet features k).getD (PyVal.num 0)))
    match g "is_summer_sale_window", g "is_autumn_sale_window",
          g "is_holiday_season", g "within_7d_of_steam_sale" with
    | Option.some a, Option.some b, Option.some c, Option.some d =>
      if a = 1 ∨ b = 1 ∨ c = 1 ∨ d = 1 then
        ["Release is close to a major Steam sale window, which can increase the chance of early promotional pricing."]
      else []
    | _, _, _, _ => []
  f1 ++ f2 ++ f3 ++ f4 ++ f5

/-- The dictionary returned by `InsightService.build_combined_insights`
(insights.py lines 339-347). -/
structure CombinedInsights where
  score_30d : Rat
  score_60d : Rat
  will_discount_30d : Bool
  will_discount_60d : Bool
  contextual_factors : List String
  news : List NewsItem
  bullets : List String

/-- insights.py lines 257-347: `InsightService.build_combined_insights`.
Scores and decisions are read from the two prediction records; news comes from
the guarded fetch (already `[]` on failure); bullets come from the guarded
generative branch, falling back to the deterministic template only when that
branch yields `[]` (`if not bullets`, line 331). -/
def buildCombinedInsights (st : InsightService) (pred_30 pred_60 : PredictResult)
    (features : FeatureMap) : CombinedInsights :=
  let score_30 := pred_30.score
  let score_60 := pred_60.score
  let will_30 := pred_30.will_discount
  let will_60 := pred_60.will_discount
  let contextual_factors := extractContextualFactors features
  let news := if st.news_enabled then st.news_fetch else []
  let bullets0 := combinedGenerativeBullets st
  let bullets :=
    if bullets0.isEmpty then fallbackCombinedBullets score_30 score_60 will_30 will_60
    else bullets0
  { score_30d := score_30, score_60d := score_60,
    will_discount_30d := will_30, will_discount_60d := will_60,
    contextual_factors := contextual_factors, news := news, bullets := bullets }

/-! ## feature_builder.py — FeatureBuilder -/

/-- A loosely-typed Python metadata value, as handed to
`FeatureBuilder.build_from_itad` in the `game` mapping.  `other truthy`
stands for any object of a type not otherwise modelled, remembering only its
truthiness. -/
inductive MetaVal where
  | num (x : Rat)
  | str (s : String)
  | boolean (b : Bool)
  | list (xs : List MetaVal)
  | none
  | other (truthy : Bool)

/-- Python truthiness of a metadata value. -/
def MetaVal.truthy : MetaVal → Bool
  | .num x => x != 0
  | .str s => s != ""
  | .boolean b => b
  | .list xs => !xs.isEmpty
  | .none => false
  | .other t => t

/-- Python `a or b`: `a` when truthy, otherwise `b`. -/
def pyOr (a b : MetaVal) : MetaVal :=
  if a.truthy then a else b

/-- The game metadata mapping (`game: Dict[str, Any]`). -/
def Meta : Type := List (String × MetaVal)

/-- Python `game.get(k)`: `None` when absent. -/
def metaGet (game : Meta) (k : String) : MetaVal :=
  match List.find? (fun p => p.1 == k) game with
  | Option.some p => p.2
  | Option.none => MetaVal.none

/-- Python `game.get(k, d)`. -/
def metaGetD (game : Meta) (k : String) (d : MetaVal) : MetaVal :=
  match List.find? (fun p => p.1 == k) game with
  | Option.some p => p.2
  | Option.none => d

/-- Digits of a decimal string as a natural number. -/
def digitsToNat (s : String) : Nat :=
  s.foldl (fun n c => n * 10 + (c.toNat - '0'.toNat)) 0

/-- Python `float(s)` on a string, modelled for plain decimal literals:
optional sign, then `digits`, `digits.digits`, `.digits` or `digits.`.
Exponent and inf/nan spellings are not modelled and count as parse failures;
every caller treats a failure by falling back to a default, so the claims are
insensitive to this approximation. -/
def parseFloat (s : String) : Option Rat :=
  let t := s.trim
  let (sign, u) : Rat × String :=
    if t.startsWith "-" then (-1, t.drop 1)
    else if t.startsWith "+" then (1, t.drop 1)
    else (1, t)
  match u.splitOn "." with
  | [a] =>
    if a ≠ "" ∧ a.all Char.isDigit then Option.some (sign * digitsToNat a)
    else Option.none
  | [a, b] =>
    if (a ≠ "" ∨ b ≠ "") ∧ a.all Char.isDigit ∧ b.all Char.isDigit then
      Option.some (sign * (digitsToNat a + (digitsToNat b : Rat) / (10 ^ b.length)))
    else Option.none
  | _ => Option.none

/-- Python `float(value)` on a metadata value: ints/floats are themselves,
booleans are 0/1, numeric strings parse; everything else raises
`TypeError`/`ValueError`, reported here as `Option.none`. -/
def metaFloat : MetaVal → Option Rat
  | MetaVal.num x => Option.some x
  | MetaVal.boolean b => Option.some (if b then 1 else 0)
  | MetaVal.str s => parseFloat s
  | _ => Option.none

/-- feature_builder.py lines 235-242: `FeatureBuilder._extract_launch_price`.
`game.get("price") or game.get("price_usd")`, `None` propagates, any
`float()` failure is caught and yields `None`. -/
def extract_launch_price (game : Meta) : Option Rat :=
  let price := pyOr (metaGet game "price") (metaGet game "price_usd")
  match price with
  | MetaVal.none => Option.none
  | v => metaFloat v

/-- A parsed calendar date (proleptic Gregorian), as produced by
`datetime.strptime(..., "%Y-%m-%d")`. -/
structure PyDate where
  year : Nat
  month : Nat
  day : Nat
deriving DecidableEq, Repr

/-- Days in a month of the proleptic Gregorian calendar. -/
def daysInMonth (y m : Nat) : Nat :=
  if m = 2 then
    if y % 4 = 0 ∧ (y % 100 ≠ 0 ∨ y % 400 = 0) then 29 else 28
  else if m = 4 ∨ m = 6 ∨ m = 9 ∨ m = 11 then 30
  else 31

/-- Days in the months strictly before month `m` of year `y`. -/
def daysBeforeMonth (y m : Nat) : Nat :=
  (List.range (m - 1)).foldl (fun acc i => acc + daysInMonth y (i + 1)) 0

/-- `datetime.toordinal`: day count with 0001-01-01 as day 1. -/
def dateOrdinal (d : PyDate) : Nat :=
  365 * (d.year - 1) + (d.year - 1) / 4 + (d.year - 1) / 400 - (d.year - 1) / 100
    + daysBeforeMonth d.year d.month + d.day

/-- `datetime.weekday()`: Monday = 0 … Sunday = 6 (0001-01-01 is a Monday). -/
def pyWeekday (d : PyDate) : Nat :=
  (dateOrdinal d + 6) % 7

/-- `datetime.strptime(s, "%Y-%m-%d")`, modelled as splitting on `-` into
three all-digit components with a valid month and day; failures (including
range errors) yield `Option.none`, which the caller catches. -/
def parseDate (s : String) : Option PyDate :=
  match s.splitOn "-" with
  | [y, m, d] =>
    if y ≠ "" ∧ y.all Char.isDigit ∧ m ≠ "" ∧ m.all Char.isDigit ∧
        d ≠ "" ∧ d.all Char.isDigit then
      let yn := digitsToNat y
      let mn := digitsToNat m
      let dn := digitsToNat d
      if 1 ≤ yn ∧ 1 ≤ mn ∧ mn ≤ 12 ∧ 1 ≤ dn ∧ dn ≤ daysInMonth yn mn then
        Option.some { year := yn, month := mn, day := dn }
      else Option.none
    else Option.none
  | _ => Option.none

/-- feature_builder.py lines 244-256: `FeatureBuilder._extract_release_date`.
The first truthy of three alternative keys; `raw[:10]` then `strptime` only
succeeds on strings (slicing or parsing any other type raises, caught by the
bare `except`). -/
def extract_release_date (game : Meta) : Option PyDate :=
  let raw := pyOr (pyOr (metaGet game "release_date") (metaGet game "released"))
    (metaGet game "date")
  if raw.truthy = false then Option.none
  else
    match raw with
    | MetaVal.str s => parseDate (s.take 10)
    | _ => Option.none

/-- The one-hot size bins returned by `_estimate_size_from_price`
(feature_builder.py lines 296-303), one field per dictionary key. -/
structure SizeBins where
  small : Rat
  medium : Rat
  large : Rat
  major : Rat
deriving DecidableEq, Repr

/-- feature_builder.py lines 258-305: `FeatureBuilder._estimate_size_from_price`.
(The `price is None` half of the guard cannot fire at either call site, where
`price` is always a number; the `≤ 0` half is kept.) -/
def estimate_size_from_price (price : Rat) : Rat × SizeBins :=
  let p := if price ≤ 0 then 10 else price
  if p < 15 then (1.2, { small := 1, medium := 0, large := 0, major := 0 })
  else if p < 30 then (2.0, { small := 0, medium := 1, large := 0, major := 0 })
  else if p < 50 then (2.7, { small := 0, medium := 0, large := 1, major := 0 })
  else (3.4, { small := 0, medium := 0, large := 0, major := 1 })

/-- A Python exception escaping `FeatureBuilder.build_from_itad`. -/
inductive PyExc where
  | typeError
  | attributeError
deriving DecidableEq, Repr

/-- The iteration and lowering of `[t.lower() for t in tags]`
(feature_builder.py line 43): a list yields its elements (each must be a
string, or `.lower()` raises `AttributeError`); a string yields its characters
as one-character strings; any other value is not iterable and raises
`TypeError`. -/
def tagsToLower : MetaVal → Except PyExc (List String)
  | MetaVal.list xs =>
    xs.mapM (fun t =>
      match t with
      | MetaVal.str s => Except.ok s.toLower
      | _ => Except.error PyExc.attributeError)
  | MetaVal.str s =>
    Except.ok (s.data.map (fun c => (String.singleton c).toLower))
  | _ => Except.error PyExc.typeError

/-- feature_builder.py lines 45-50: the cluster flags computed by
`_map_tags_to_genre_clusters` from the lowered tags — `any(t in tags_lower
for t in [...])` is exact list membership of each fixed keyword. -/
def genreClusterFlags (tags_lower : List String) : List (String × Nat) :=
  [("genre_cluster_strategy_sim_y",
      if ["strategy", "simulation", "4x", "grand strategy"].any
        (fun t => tags_lower.contains t) then 1 else 0),
   ("genre_cluster_mmo_y",
      if ["mmo", "online", "multiplayer"].any
        (fun t => tags_lower.contains t) then 1 else 0),
   ("genre_cluster_story_action_mainstream",
      if ["action", "adventure", "story", "rpg"].any
        (fun t => tags_lower.contains t) then 1 else 0),
   ("genre_cluster_sports_competitive",
      if ["sports", "racing", "competitive"].any
        (fun t => tags_lower.contains t) then 1 else 0)]

/-- Python `int()` on a float: truncation toward zero. -/
def pyTrunc (x : Rat) : Int :=
  if x < 0 then -((-x).floor) else x.floor

/-- feature_builder.py lines 166-173: the franchise-median loop — scan the
cluster flags in declaration order; at the first active flag whose cluster is
in the loaded map, return that median truncated to an integer; default 1. -/
def franchiseLoop (fmap : List (String × Rat)) : List (String × Nat) → Int
  | [] => 1
  | (name, active) :: rest =>
    if active = 1 then
      match List.find? (fun p => p.1 == name) fmap with
      | Option.some p => pyTrunc p.2
      | Option.none => franchiseLoop fmap rest
    else franchiseLoop fmap rest

/-- feature_builder.py lines 108-115: the recognized PC storefronts. -/
def pcShops : List String :=
  ["Steam", "GOG", "Epic Games Store", "Humble Store", "Green Man Gaming",
   "Fanatical"]

/-- The pure assembly of the feature dictionary (feature_builder.py
lines 64-233 after tag lowering has succeeded), with entries in source
insertion order.  Construction-time and collaborator state appear as
parameters:
  * `franchise_map` — the table loaded by `_load_franchise_map`;
  * `log`           — `math.log`, kept abstract (its value is irrelevant to
    every claim; the code only stores its result);
  * `currentYear`   — `datetime.utcnow().year`, for the default release date;
  * `itadEnabled`   — `itad_client.is_enabled()`;
  * `shops`         — the list returned by `get_game_shops` (it returns `[]`
    on any failure and never raises). -/
def buildCore (franchise_map : List (String × Rat)) (log : Rat → Rat)
    (currentYear : Nat) (itadEnabled : Bool) (shops : List String)
    (game : Meta) (tags_lower : List String) : List (String × Rat) :=
  let price0 := extract_launch_price game
  let price : Rat :=
    match price0 with
    | Option.none => 60.0
    | Option.some p => if p ≤ 0 then 60.0 else p
  let release_date := (extract_release_date game).getD
    { year := currentYear, month := 12, day := 1 }
  let m := release_date.month
  let shopsBranch : Rat × Rat × Rat :=
    if (metaGet game "id").truthy ∧ itadEnabled then
      if shops.isEmpty then (0, 0, 0)
      else
        let pc_present := shops.filter (fun s => pcShops.contains s)
        let is_multi : Rat := if pc_present.length > 1 then 1 else 0
        let excl : Rat :=
          if (!pc_present.isEmpty) && pc_present.all (fun s => s == "Steam")
          then 1 else 0
        (is_multi, excl, is_multi)
    else (0, 0, 0)
  let is_multi_store_pc := shopsBranch.1
  let exclusive_steam := shopsBranch.2.1
  let is_multiplatform_refined := shopsBranch.2.2
  let pub := estimate_size_from_price price
  let dev := estimate_size_from_price price
  let genre_flags := genreClusterFlags tags_lower
  let efc : Int :=
    if franchise_map.isEmpty then 1 else franchiseLoop franchise_map genre_flags
  let flagsGet := fun k =>
    match List.find? (fun p => p.1 == k) genre_flags with
    | Option.some p => p.2
    | Option.none => 0
  [("log_launch_price", log price),
   ("release_year", (release_date.year : Rat)),
   ("release_month", (m : Rat)),
   ("release_quarter", (((m - 1) / 3 + 1 : Nat) : Rat)),
   ("release_weekday", (pyWeekday release_date : Rat)),
   ("is_holiday_season", if m = 11 ∨ m = 12 then 1 else 0),
   ("is_summer_sale_window", if m = 6 ∨ m = 7 then 1 else 0),
   ("is_autumn_sale_window", if m = 10 then 1 else 0),
   ("within_7d_of_steam_sale", if m = 6 ∨ m = 11 ∨ m = 12 then 1 else 0),
   ("early_access", if (metaGetD game "early_access" (MetaVal.boolean false)).truthy then 1 else 0),
   ("mature", if (metaGetD game "mature" (MetaVal.boolean false)).truthy then 1 else 0),
   ("Achievements", if (metaGetD game "achievements" (MetaVal.boolean true)).truthy then 1 else 0),
   ("is_multi_store_pc", is_multi_store_pc),
   ("exclusive_steam", exclusive_steam),
   ("is_multiplatform_refined", is_multiplatform_refined),
   ("is_cross_platform", 0),
   ("publisher_size_log", pub.1),
   ("publisher_size_bin__Small (≤5)", pub.2.small),
   ("publisher_size_bin__Medium (6–15)", pub.2.medium),
   ("publisher_size_bin__Large (16–50)", pub.2.large),
   ("publisher_size_bin__Major (>50)", pub.2.major),
   ("developer_size_log", dev.1),
   ("developer_size_bin__Solo/Indie (≤2)", dev.2.small),
   ("developer_size_bin__Small (3–5)", dev.2.medium),
   ("developer_size_bin__Mid (6–15)", dev.2.large),
   ("developer_size_bin__Large (>15)", dev.2.major),
   ("franchise_count_prev", (efc : Rat)),
   ("price_x_multiplatform", price * is_multiplatform_refined),
   ("publisher_x_multiplatform", pub.1 * is_multiplatform_refined),
   ("developer_x_multiplatform", dev.1 * is_multiplatform_refined),
   ("price_x_pubsize", price * pub.1),
   ("price_x_devsize", price * dev.1),
   ("genre_cluster_strategy_sim", (flagsGet "genre_cluster_strategy_sim_y" : Rat)),
   ("genre_cluster_mmo", (flagsGet "genre_cluster_mmo_y" : Rat))]

/-- feature_builder.py lines 52-233: `FeatureBuilder.build_from_itad`.
Every derivation except the tag comprehension is total (each helper catches
its own exceptions); the tag comprehension of `_map_tags_to_genre_clusters`
(line 43) is the one place where an exception escapes, so the whole call is
`Except.error` exactly when lowering the `tags` value raises. -/
def build_from_itad (franchise_map : List (String × Rat)) (log : Rat → Rat)
    (currentYear : Nat) (itadEnabled : Bool) (shops : List String)
    (game : Meta) : Except PyExc (List (String × Rat)) :=
  match tagsToLower (metaGetD game "tags" (MetaVal.list [])) with
  | Except.error e => Except.error e
  | Except.ok tags_lower =>
    Except.ok (buildCore franchise_map log currentYear itadEnabled shops game tags_lower)

/-- The 34 keys of the defensive missing-key check
(feature_builder.py lines 190-225), in source order. -/
def checkKeys : List String :=
  ["log_launch_price", "publisher_size_log", "release_year", "release_quarter",
   "release_month", "release_weekday", "is_holiday_season",
   "is_summer_sale_window", "early_access", "mature", "Achievements",
   "is_multiplatform_refined", "exclusive_steam", "is_multi_store_pc",
   "is_cross_platform", "genre_cluster_strategy_sim", "genre_cluster_mmo",
   "is_autumn_sale_window", "within_7d_of_steam_sale", "franchise_count_prev",
   "developer_size_log", "publisher_size_bin__Small (≤5)",
   "publisher_size_bin__Medium (6–15)", "publisher_size_bin__Large (16–50)",
   "publisher_size_bin__Major (>50)", "developer_size_bin__Solo/Indie (≤2)",
   "developer_size_bin__Small (3–5)", "developer_size_bin__Mid (6–15)",
   "developer_size_bin__Large (>15)", "price_x_multiplatform",
   "publisher_x_multiplatform", "developer_x_multiplatform", "price_x_pubsize",
   "price_x_devsize"]

/-- The `missing` list computed by the defensive check (feature_builder.py
lines 190-225): check keys not present in the built dictionary. -/
def missingKeysOf (f : List (String × Rat)) : List String :=
  checkKeys.filter (fun k => !((f.map Prod.fst).contains k))

/-- Dictionary lookup on the built feature map. -/
def featGet (f : List (String × Rat)) (k : String) : Option Rat :=
  match List.find? (fun p => p.1 == k) f with
  | Option.some p => Option.some p.2
  | Option.none => Option.none

/-! ## Theorems -/

/-- C1: every successful `ModelService.predict` call returns a record with
`will_discount` equal to `score ≥ threshold` (equality at the boundary giving
`true`), where the returned threshold is the caller-supplied value when
provided and the service default otherwise; the process-wide service instance
carries default threshold 0.5. -/
theorem predict_decision_consistency (st : ModelService) (horizon : String)
    (appid : Int) (features : FeatureMap) (threshold : Option Rat)
    (r : PredictResult)
    (hok : st.predict horizon appid features threshold = Except.ok r) :
    r.will_discount = decide (r.score ≥ r.threshold) ∧
    (r.score = r.threshold → r.will_discount = true) ∧
    r.threshold = threshold.getD st.default_threshold ∧
    model_service.default_threshold = 0.5 := by
  unfold ModelService.predict at hok
  dsimp only [ItadClient.enrich_features] at hok
  repeat' split at hok
  all_goals first
    | exact Except.noConfusion hok
    | (simp only [Except.ok.injEq] at hok
       subst hok
       exact ⟨by simp [*], by intro h; simp_all, rfl, rfl⟩)

/-- Witness for C1 at a concrete loaded service, with `score = threshold = 1`
exercising the inclusive boundary. -/
theorem predict_decision_consistency_witness :
    true = decide ((1 : Rat) ≥ 1) ∧
    ((1 : Rat) = 1 → true = true) ∧
    (1 : Rat) = (Option.some (1 : Rat)).getD
      ({ model_30d := Option.some (fun _ => 1),
         model_60d := Option.some (fun _ => 1),
         feature_names := Option.some ["a"] } : ModelService).default_threshold ∧
    model_service.default_threshold = 0.5 :=
  predict_decision_consistency
    { model_30d := Option.some (fun _ => 1),
      model_60d := Option.some (fun _ => 1),
      feature_names := Option.some ["a"] }
    "30d" 480 [("a", PyVal.num 2)] (Option.some 1)
    { appid := 480, horizon := "30d", score := 1, threshold := 1,
      will_discount := true }
    (by rfl)

/-- C2 counterexample: at a fully loaded service, an invalid horizon makes
`predict` raise `BadRequestError` — the very class used for feature-schema
violations — not a distinct `InvalidHorizon` error (no such class exists in
exceptions.py). -/
theorem invalid_horizon_error_class_counterexample :
    ModelService.predict
      { model_30d := Option.some (fun _ => 0.5),
        model_60d := Option.some (fun _ => 0.5),
        feature_names := Option.some ["a"] }
      "45d" 480 [] Option.none
      = Except.error (PredError.badRequest (BadRequestPayload.invalidHorizon "45d")) ∧
    (PredError.badRequest (BadRequestPayload.invalidHorizon "45d")).pyClass
      = (PredError.badRequest (BadRequestPayload.missingFeatures ["a"])).pyClass :=
  ⟨rfl, rfl⟩

/-- C2 amended: for every horizon string other than `"30d"` and `"60d"`,
`ModelService.predict` raises `BadRequestError` carrying the invalid-horizon
message — the same exception class used for feature-schema violations —
regardless of the other arguments and of the service state. -/
theorem invalid_horizon_raises_bad_request (st : ModelService) (horizon : String)
    (appid : Int) (features : FeatureMap) (threshold : Option Rat)
    (h30 : horizon ≠ "30d") (h60 : horizon ≠ "60d") :
    st.predict horizon appid features threshold
      = Except.error (PredError.badRequest (BadRequestPayload.invalidHorizon horizon)) ∧
    (PredError.badRequest (BadRequestPayload.invalidHorizon horizon)).pyClass
      = "BadRequestError" := by
  constructor
  · have hv : Horizon.is_valid horizon = false := by
      unfold Horizon.is_valid Horizon.THIRTY Horizon.SIXTY
      simp [h30, h60]
    unfold ModelService.predict
    simp [hv]
  · rfl

/-- Witness for C2 amended at the concrete horizon `"45d"` on the unloaded
process-wide service. -/
theorem invalid_horizon_raises_bad_request_witness :
    ModelService.predict {} "45d" 1 [] Option.none
      = Except.error (PredError.badRequest (BadRequestPayload.invalidHorizon "45d")) ∧
    (PredError.badRequest (BadRequestPayload.invalidHorizon "45d")).pyClass
      = "BadRequestError" :=
  invalid_horizon_raises_bad_request {} "45d" 1 [] Option.none
    (by decide) (by decide)

/-- In `_vectorize`, a schema name lands in the `missing` list exactly when
the map has no entry for it or maps it to `None` (predictor.py lines 156-163). -/
def isMissingVal : Option PyVal → Bool
  | Option.none => true
  | Option.some PyVal.none => true
  | _ => false

/-- In `_vectorize`, a schema name triggers the non-numeric raise exactly when
the map carries a value whose `float()` fails (predictor.py lines 165-170). -/
def isBadVal : Option PyVal → Bool
  | Option.some (PyVal.bad _) => true
  | _ => false

/-- When no schema name maps to a non-numeric value, the vectorization loop
runs to completion and its `missing` accumulator collects exactly the schema
names that are absent or `None`, in schema order. -/
theorem vectorizeLoop_ok_of_no_bad (features : FeatureMap) (names : List String)
    (hgood : ∀ k ∈ names, isBadVal (fmGet features k) = false) :
    ∀ vector missing, ∃ vec,
      vectorizeLoop features names vector missing =
        Except.ok (vec, missing ++ names.filter (fun k => isMissingVal (fmGet features k))) := by
  induction names with
  | nil => intro vector missing; exact ⟨vector, by simp [vectorizeLoop]⟩
  | cons name rest ih =>
    intro vector missing
    have hname : isBadVal (fmGet features name) = false :=
      hgood name (List.mem_cons_self name rest)
    have hrest : ∀ k ∈ rest, isBadVal (fmGet features k) = false :=
      fun k hk => hgood k (List.mem_cons_of_mem name hk)
    cases hv : fmGet features name with
    | none =>
      obtain ⟨vec, hvec⟩ := ih hrest vector (missing ++ [name])
      refine ⟨vec, ?_⟩
      simp only [vectorizeLoop, hv, hvec, List.filter_cons, isMissingVal]
      simp [List.append_assoc]
    | some v =>
      cases v with
      | none =>
        obtain ⟨vec, hvec⟩ := ih hrest vector (missing ++ [name])
        refine ⟨vec, ?_⟩
        simp only [vectorizeLoop, hv, hvec, List.filter_cons, isMissingVal]
        simp [List.append_assoc]
      | num x =>
        obtain ⟨vec, hvec⟩ := ih hrest (vector ++ [x]) missing
        refine ⟨vec, ?_⟩
        simp only [vectorizeLoop, hv, hvec, List.filter_cons, isMissingVal]
        simp
      | bad r => rw [hv] at hname; exact absurd hname (by simp [isBadVal])

/-- When some schema name maps to a non-numeric value, the vectorization loop
raises the non-numeric `BadRequestError` for the first such name in schema
order, whatever the accumulators hold — in particular the missing-names check
after the loop is never reached. -/
theorem vectorizeLoop_error_of_bad (features : FeatureMap) (names : List String)
    (hbad : ∃ k ∈ names, isBadVal (fmGet features k) = true) :
    ∃ k r, k ∈ names ∧ fmGet features k = Option.some (PyVal.bad r) ∧
      ∀ vector missing, vectorizeLoop features names vector missing =
        Except.error (PredError.badRequest (BadRequestPayload.nonNumericFeature k r)) := by
  induction names with
  | nil => obtain ⟨k, hk, _⟩ := hbad; exact absurd hk (by simp)
  | cons name rest ih =>
    cases hv : fmGet features name with
    | some v =>
      cases v with
      | bad r =>
        exact ⟨name, r, List.mem_cons_self name rest, hv,
          fun vector missing => by simp [vectorizeLoop, hv]⟩
      | num x =>
        obtain ⟨k, hk, hkb⟩ := hbad
        rcases List.mem_cons.mp hk with hkn | hkr
        · subst hkn; rw [hv] at hkb; exact absurd hkb (by simp [isBadVal])
        · obtain ⟨k, r, hk, hfk, hloop⟩ := ih ⟨k, hkr, hkb⟩
          exact ⟨k, r, List.mem_cons_of_mem name hk, hfk,
            fun vector missing => by simp [vectorizeLoop, hv, hloop]⟩
      | none =>
        obtain ⟨k, hk, hkb⟩ := hbad
        rcases List.mem_cons.mp hk with hkn | hkr
        · subst hkn; rw [hv] at hkb; exact absurd hkb (by simp [isBadVal])
        · obtain ⟨k, r, hk, hfk, hloop⟩ := ih ⟨k, hkr, hkb⟩
          exact ⟨k, r, List.mem_cons_of_mem name hk, hfk,
            fun vector missing => by simp [vectorizeLoop, hv, hloop]⟩
    | none =>
      obtain ⟨k, hk, hkb⟩ := hbad
      rcases List.mem_cons.mp hk with hkn | hkr
      · subst hkn; rw [hv] at hkb; exact absurd hkb (by simp [isBadVal])
      · obtain ⟨k, r, hk, hfk, hloop⟩ := ih ⟨k, hkr, hkb⟩
        exact ⟨k, r, List.mem_cons_of_mem name hk, hfk,
          fun vector missing => by simp [vectorizeLoop, hv, hloop]⟩

/-- C9: in `ModelService._vectorize`, a schema key present in the map but
mapped to `None` is classified as missing — it appears in the
`missingFeatures` list of the raised `BadRequestError` (provided no value is
non-numeric, which would pre-empt it) — and whenever some schema-named value
is non-numeric and non-`None`, the non-numeric `BadRequestError` is raised
and the missing-keys error is never reported. -/
theorem vectorize_none_is_missing_and_bad_preempts (st : ModelService)
    (names : List String) (features : FeatureMap)
    (hn : st.feature_names = Option.some names) :
    ((∀ k ∈ names, isBadVal (fmGet features k) = false) →
      ∀ k ∈ names, fmGet features k = Option.some PyVal.none →
        k ∈ names.filter (fun k => isMissingVal (fmGet features k)) ∧
        st.vectorize features =
          Except.error (PredError.badRequest (BadRequestPayload.missingFeatures
            (names.filter (fun k => isMissingVal (fmGet features k)))))) ∧
    ((∃ k ∈ names, isBadVal (fmGet features k) = true) →
      ∃ k r, k ∈ names ∧ fmGet features k = Option.some (PyVal.bad r) ∧
        st.vectorize features =
          Except.error (PredError.badRequest (BadRequestPayload.nonNumericFeature k r))) := by
  constructor
  · intro hgood k hk hknone
    have hkfilter : k ∈ names.filter (fun k => isMissingVal (fmGet features k)) :=
      List.mem_filter.mpr ⟨hk, by simp [hknone, isMissingVal]⟩
    refine ⟨hkfilter, ?_⟩
    obtain ⟨vec, hloop⟩ := vectorizeLoop_ok_of_no_bad features names hgood [] []
    have hne : names.isEmpty = false := by
      cases names with
      | nil => exact absurd hk (by simp)
      | cons a l => rfl
    have hpos : (names.filter (fun k => isMissingVal (fmGet features k))).length > 0 :=
      List.length_pos.mpr (List.ne_nil_of_mem hkfilter)
    unfold ModelService.vectorize
    rw [hn]
    simp only [hne, Bool.false_eq_true, if_false, hloop, List.nil_append]
    simp [hpos]
  · intro hbad
    obtain ⟨k, r, hk, hfk, hloop⟩ := vectorizeLoop_error_of_bad features names hbad
    have hne : names.isEmpty = false := by
      cases names with
      | nil => exact absurd hk (by simp)
      | cons a l => rfl
    refine ⟨k, r, hk, hfk, ?_⟩
    unfold ModelService.vectorize
    rw [hn]
    simp [hne, hloop]

/-- Witness for C9: on the schema `["a", "b"]`, the map `a ↦ 1, b ↦ None`
reports `b` as missing, and the map `a ↦ None, b ↦ ⟨non-numeric⟩` raises the
non-numeric error even though `a` is missing. -/
theorem vectorize_none_is_missing_and_bad_preempts_witness :
    (("b" ∈ (["b"] : List String)) ∧
      ModelService.vectorize
        { feature_names := Option.some ["a", "b"] }
        [("a", PyVal.num 1), ("b", PyVal.none)] =
        Except.error (PredError.badRequest (BadRequestPayload.missingFeatures ["b"]))) ∧
    (∃ k r, k ∈ (["a", "b"] : List String) ∧
      fmGet [("a", PyVal.none), ("b", PyVal.bad "dict")] k =
        Option.some (PyVal.bad r) ∧
      ModelService.vectorize
        { feature_names := Option.some ["a", "b"] }
        [("a", PyVal.none), ("b", PyVal.bad "dict")] =
        Except.error (PredError.badRequest (BadRequestPayload.nonNumericFeature k r))) :=
  ⟨(vectorize_none_is_missing_and_bad_preempts
      { feature_names := Option.some ["a", "b"] } ["a", "b"]
      [("a", PyVal.num 1), ("b", PyVal.none)] rfl).1
    (by decide) "b" (by decide) (by rfl),
   (vectorize_none_is_missing_and_bad_preempts
      { feature_names := Option.some ["a", "b"] } ["a", "b"]
      [("a", PyVal.none), ("b", PyVal.bad "dict")] rfl).2
    ⟨"b", by decide⟩⟩

/-- With a valid horizon and both models loaded, `predict` propagates any
error raised by `_vectorize` unchanged (predictor.py line 207: the call is
not guarded). -/
theorem predict_error_of_vectorize_error (st : ModelService) (horizon : String)
    (appid : Int) (features : FeatureMap) (threshold : Option Rat)
    (e : PredError) (hh : Horizon.is_valid horizon = true)
    (hm30 : st.model_30d.isSome = true) (hm60 : st.model_60d.isSome = true)
    (hv : st.vectorize features = Except.error e) :
    st.predict horizon appid features threshold = Except.error e := by
  obtain ⟨m30, h30⟩ := Option.isSome_iff_exists.mp hm30
  obtain ⟨m60, h60⟩ := Option.isSome_iff_exists.mp hm60
  unfold ModelService.predict
  simp [hh, h30, h60, ItadClient.enrich_features, hv]

/-- C4: for every feature map passed to `predict` on a loaded service with a
valid horizon: a non-numeric value under some schema key raises a
`BadRequestError` naming that key, and — when every value present under a
schema key is numeric — any absent schema keys raise a single
`BadRequestError` listing all of them together, in schema order. -/
theorem predict_nonnumeric_and_missing_behaviour (st : ModelService)
    (horizon : String) (appid : Int) (features : FeatureMap)
    (threshold : Option Rat) (names : List String)
    (hn : st.feature_names = Option.some names)
    (hm30 : st.model_30d.isSome = true) (hm60 : st.model_60d.isSome = true)
    (hh : Horizon.is_valid horizon = true) :
    ((∃ k ∈ names, isBadVal (fmGet features k) = true) →
      ∃ k r, k ∈ names ∧ fmGet features k = Option.some (PyVal.bad r) ∧
        st.predict horizon appid features threshold =
          Except.error (PredError.badRequest (BadRequestPayload.nonNumericFeature k r))) ∧
    ((∀ k ∈ names, ∀ v, fmGet features k = Option.some v → ∃ x, v = PyVal.num x) →
      (∃ k ∈ names, fmGet features k = Option.none) →
      st.predict horizon appid features threshold =
        Except.error (PredError.badRequest (BadRequestPayload.missingFeatures
          (names.filter (fun k => (fmGet features k).isNone))))) := by
  constructor
  · intro hbad
    obtain ⟨k, r, hk, hfk, hvec⟩ :=
      (vectorize_none_is_missing_and_bad_preempts st names features hn).2 hbad
    exact ⟨k, r, hk, hfk,
      predict_error_of_vectorize_error st horizon appid features threshold _
        hh hm30 hm60 hvec⟩
  · intro hnum ⟨k, hk, hkabs⟩
    have hgood : ∀ k ∈ names, isBadVal (fmGet features k) = false := by
      intro k hk
      cases hv : fmGet features k with
      | none => simp [isBadVal]
      | some v =>
        obtain ⟨x, hx⟩ := hnum k hk v hv
        subst hx
        simp [isBadVal]
    have hfilter : names.filter (fun k => isMissingVal (fmGet features k)) =
        names.filter (fun k => (fmGet features k).isNone) := by
      apply List.filter_congr
      intro k hk
      cases hv : fmGet features k with
      | none => simp [isMissingVal]
      | some v =>
        obtain ⟨x, hx⟩ := hnum k hk v hv
        subst hx
        simp [isMissingVal]
    obtain ⟨vec, hloop⟩ := vectorizeLoop_ok_of_no_bad features names hgood [] []
    have hne : names.isEmpty = false := by
      cases names with
      | nil => exact absurd hk (by simp)
      | cons a l => rfl
    have hkfilter : k ∈ names.filter (fun k => isMissingVal (fmGet features k)) :=
      List.mem_filter.mpr ⟨hk, by simp [hkabs, isMissingVal]⟩
    have hpos : (names.filter (fun k => isMissingVal (fmGet features k))).length > 0 :=
      List.length_pos.mpr (List.ne_nil_of_mem hkfilter)
    have hvec : st.vectorize features =
        Except.error (PredError.badRequest (BadRequestPayload.missingFeatures
          (names.filter (fun k => (fmGet features k).isNone)))) := by
      unfold ModelService.vectorize
      rw [hn]
      simp only [hne, Bool.false_eq_true, if_false, hloop, List.nil_append]
      rw [← hfilter]
      simp [hpos]
    exact predict_error_of_vectorize_error st horizon appid features threshold _
      hh hm30 hm60 hvec

/-- Witness for C4: on the loaded schema `["a", "b"]`, a map with a
non-numeric `b` raises the non-numeric error naming `b`, and a map carrying
only a numeric `b` raises the missing-keys error listing `a`. -/
theorem predict_nonnumeric_and_missing_behaviour_witness :
    (∃ k r, k ∈ (["a", "b"] : List String) ∧
      fmGet [("a", PyVal.num 1), ("b", PyVal.bad "list")] k =
        Option.some (PyVal.bad r) ∧
      ModelService.predict
        { model_30d := Option.some (fun _ => 1),
          model_60d := Option.some (fun _ => 1),
          feature_names := Option.some ["a", "b"] }
        "30d" 480 [("a", PyVal.num 1), ("b", PyVal.bad "list")] Option.none =
        Except.error (PredError.badRequest (BadRequestPayload.nonNumericFeature k r))) ∧
    ModelService.predict
      { model_30d := Option.some (fun _ => 1),
        model_60d := Option.some (fun _ => 1),
        feature_names := Option.some ["a", "b"] }
      "60d" 480 [("b", PyVal.num 3)] Option.none =
      Except.error (PredError.badRequest (BadRequestPayload.missingFeatures ["a"])) :=
  ⟨(predict_nonnumeric_and_missing_behaviour
      { model_30d := Option.some (fun _ => 1),
        model_60d := Option.some (fun _ => 1),
        feature_names := Option.some ["a", "b"] }
      "30d" 480 [("a", PyVal.num 1), ("b", PyVal.bad "list")] Option.none
      ["a", "b"] rfl rfl rfl rfl).1
    ⟨"b", by decide⟩,
   (predict_nonnumeric_and_missing_behaviour
      { model_30d := Option.some (fun _ => 1),
        model_60d := Option.some (fun _ => 1),
        feature_names := Option.some ["a", "b"] }
      "60d" 480 [("b", PyVal.num 3)] Option.none
      ["a", "b"] rfl rfl rfl rfl).2
    (by
      intro k hk v hv
      simp only [List.mem_cons, List.not_mem_nil, or_false] at hk
      rcases hk with rfl | rfl
      · simp [fmGet] at hv
      · refine ⟨3, ?_⟩
        simp only [fmGet, List.find?] at hv
        simp at hv
        exact hv.symm)
    ⟨"a", by decide⟩⟩

/-- The deterministic fallback always yields exactly 3 bullets
(insights.py lines 349-392: one bullet per template family, then `[:3]`). -/
theorem fallbackCombinedBullets_length (score_30 score_60 : Rat)
    (will_30 will_60 : Bool) :
    (fallbackCombinedBullets score_30 score_60 will_30 will_60).length = 3 := by
  unfold fallbackCombinedBullets
  rfl

/-- C3 counterexample: with a generative collaborator configured and a
response parsing to a single non-empty line, `build_combined_insights`
returns exactly that one bullet — not 3. -/
theorem combined_bullets_single_line_counterexample :
    (buildCombinedInsights
      { openai_enabled := true, openai_client_present := true,
        openai_raw := Option.some "- lean wait for a seasonal sale",
        news_enabled := false, news_fetch := [] }
      { appid := 480, horizon := "30d", score := 0, threshold := 1,
        will_discount := false }
      { appid := 480, horizon := "60d", score := 0, threshold := 1,
        will_discount := false }
      []).bullets = ["lean wait for a seasonal sale"] := by
  rfl

/-- C3 amended: `build_combined_insights` always returns between 1 and 3
bullets; it returns exactly 3 whenever the guarded generative branch yields
no bullets (collaborator disabled, client missing, call failed, or response
parsed to zero lines); when the generative branch yields 1-3 parsed lines it
returns exactly those lines, which may number fewer than 3. -/
theorem combined_bullets_count (st : InsightService)
    (pred_30 pred_60 : PredictResult) (features : FeatureMap) :
    (buildCombinedInsights st pred_30 pred_60 features).bullets.length ≤ 3 ∧
    0 < (buildCombinedInsights st pred_30 pred_60 features).bullets.length ∧
    (combinedGenerativeBullets st = [] →
      (buildCombinedInsights st pred_30 pred_60 features).bullets.length = 3) ∧
    (combinedGenerativeBullets st ≠ [] →
      (buildCombinedInsights st pred_30 pred_60 features).bullets =
        combinedGenerativeBullets st) := by
  have hfb := fallbackCombinedBullets_length pred_30.score pred_60.score
    pred_30.will_discount pred_60.will_discount
  have hgen : ∀ raw, (parseBullets raw).length ≤ 3 := by
    intro raw
    unfold parseBullets
    exact List.length_take_le 3 _
  have hbul : (buildCombinedInsights st pred_30 pred_60 features).bullets =
      if (combinedGenerativeBullets st).isEmpty then
        fallbackCombinedBullets pred_30.score pred_60.score
          pred_30.will_discount pred_60.will_discount
      else combinedGenerativeBullets st := rfl
  refine ⟨?_, ?_, ?_, ?_⟩
  · rw [hbul]
    split
    · rw [hfb]
    · unfold combinedGenerativeBullets
      split
      · unfold buildOpenaiSummaryCombined
        split
        · simp
        · split
          · simp
          · exact hgen _
      · simp
  · rw [hbul]
    split
    · rw [hfb]; norm_num
    · rename_i hne
      rw [Bool.not_eq_true, List.isEmpty_eq_false] at hne
      exact List.length_pos.mpr hne
  · intro hempty
    rw [hbul, hempty]
    simp [hfb]
  · intro hne
    rw [hbul, if_neg]
    simp only [List.isEmpty_iff]
    exact hne

/-- Witness for C3 amended: with no generative collaborator configured, the
combined insights carry exactly 3 bullets. -/
theorem combined_bullets_count_witness :
    (buildCombinedInsights
      { openai_enabled := false, openai_client_present := false,
        openai_raw := Option.none, news_enabled := false, news_fetch := [] }
      { appid := 480, horizon := "30d", score := 0, threshold := 1,
        will_discount := false }
      { appid := 480, horizon := "60d", score := 0, threshold := 1,
        will_discount := false }
      []).bullets.length = 3 :=
  (combined_bullets_count
    { openai_enabled := false, openai_client_present := false,
      openai_raw := Option.none, news_enabled := false, news_fetch := [] }
    { appid := 480, horizon := "30d", score := 0, threshold := 1,
      will_discount := false }
    { appid := 480, horizon := "60d", score := 0, threshold := 1,
      will_discount := false }
    []).2.2.1 rfl

/-- Any non-empty sale keyword appearing as a substring of the lowered title
makes `_is_relevant_article` keep the article, whatever the game name
(insights.py lines 66-67). -/
theorem isRelevantArticle_of_keyword (title game_name w : String)
    (hw : w ∈ saleKeywords) (hne : w ≠ "")
    (hsub : strContains w (pyLower title) = true) :
    isRelevantArticle title game_name = true := by
  have htitle : title ≠ "" := by
    intro h
    subst h
    have hinf : w.data <:+: ([] : List Char) := of_decide_eq_true hsub
    exact hne (String.ext (List.infix_nil.mp hinf))
  have hany : saleKeywords.any (fun word => strContains word (pyLower title)) = true :=
    List.any_eq_true.mpr ⟨w, hw, hsub⟩
  unfold isRelevantArticle
  rw [if_neg htitle]
  dsimp only
  split
  · rfl
  · simp [hany]

/-- C8 counterexample: for the empty game name — which is a (case-insensitive)
substring of every title — a title with no sale keyword is dropped, so the
claim does not hold for every game name. -/
theorem relevance_filter_empty_name_counterexample :
    strContains (pyStripWs (pyLower "")) (pyLower "Breaking political news") = true ∧
    isRelevantArticle "Breaking political news" "" = false := by
  exact ⟨rfl, rfl⟩

/-- C8 amended: the relevance filter keeps a title containing the game name
as a case-insensitive substring whenever the lowered, stripped game name is
non-empty; keeps a title containing the keyword `"discount"` even with no
game-name match; and drops a title containing neither a game-name substring
match nor any keyword of the fixed sale/discount list. -/
theorem relevance_filter_behaviour (title game_name : String) :
    (pyStripWs (pyLower game_name) ≠ "" →
      strContains (pyStripWs (pyLower game_name)) (pyLower title) = true →
      isRelevantArticle title game_name = true) ∧
    (strContains "discount" (pyLower title) = true →
      isRelevantArticle title game_name = true) ∧
    (strContains (pyStripWs (pyLower game_name)) (pyLower title) = false →
      (∀ w ∈ saleKeywords, strContains w (pyLower title) = false) →
      isRelevantArticle title game_name = false) := by
  refine ⟨?_, ?_, ?_⟩
  · intro hgl hsub
    have htitle : title ≠ "" := by
      intro h
      subst h
      have hinf : (pyStripWs (pyLower game_name)).data <:+: ([] : List Char) :=
        of_decide_eq_true hsub
      exact hgl (String.ext (List.infix_nil.mp hinf))
    unfold isRelevantArticle
    rw [if_neg htitle]
    dsimp only
    rw [if_pos ⟨hgl, hsub⟩]
  · intro hd
    exact isRelevantArticle_of_keyword title game_name "discount"
      (by decide) (by decide) hd
  · intro hnm hkw
    by_cases ht : title = ""
    · simp [isRelevantArticle, ht]
    · have h1 : ¬(pyStripWs (pyLower game_name) ≠ "" ∧
          strContains (pyStripWs (pyLower game_name)) (pyLower title) = true) := by
        rintro ⟨-, hc⟩
        rw [hnm] at hc
        exact Bool.false_ne_true hc
      have h2 : ¬(saleKeywords.any (fun word => strContains word (pyLower title)) = true) := by
        rw [List.any_eq_true]
        rintro ⟨w, hw, hwt⟩
        rw [hkw w hw] at hwt
        exact Bool.false_ne_true hwt
      unfold isRelevantArticle
      rw [if_neg ht]
      dsimp only
      rw [if_neg h1, if_neg h2]

/-- Witness for C8 amended, mirroring the repository's own test inputs:
a name match is kept, a discount headline is kept, an unrelated headline is
dropped. -/
theorem relevance_filter_behaviour_witness :
    isRelevantArticle "Cyberpunk 2077 patch notes released" "Cyberpunk 2077" = true ∧
    isRelevantArticle "Huge discounts on RPGs this weekend" "Some Unknown Game" = true ∧
    isRelevantArticle "Asus releases new GPU for AI workloads" "Cyberpunk 2077" = false :=
  ⟨(relevance_filter_behaviour "Cyberpunk 2077 patch notes released"
      "Cyberpunk 2077").1 (by decide) (by decide),
   (relevance_filter_behaviour "Huge discounts on RPGs this weekend"
      "Some Unknown Game").2.1 (by decide),
   (relevance_filter_behaviour "Asus releases new GPU for AI workloads"
      "Cyberpunk 2077").2.2 (by decide) (by decide)⟩

/-- C10: the sale-keyword test is a plain substring match over the lowered
title, and `"off"` is on the keyword list, so any title containing the
sequence `"off"` anywhere is kept, regardless of the game name. -/
theorem keyword_off_substring_keeps_title (title game_name : String)
    (hoff : strContains "off" (pyLower title) = true) :
    isRelevantArticle title game_name = true :=
  isRelevantArticle_of_keyword title game_name "off" (by decide) (by decide) hoff

/-- Witness for C10: a headline about an office — no game-name match, no
sale-related wording — is kept because `"office"` contains `"off"`. -/
theorem keyword_off_substring_keeps_title_witness :
    isRelevantArticle "Microsoft opens a new office in Dublin" "Elden Ring" = true :=
  keyword_off_substring_keeps_title "Microsoft opens a new office in Dublin"
    "Elden Ring" (by decide)

/-- A key present among a feature dictionary's keys is found by `featGet`. -/
theorem featGet_isSome_of_mem_keys (f : List (String × Rat)) (k : String)
    (hk : k ∈ f.map Prod.fst) : (featGet f k).isSome = true := by
  unfold featGet
  obtain ⟨p, hp, hpk⟩ := List.mem_map.mp hk
  have hs : (List.find? (fun p => p.1 == k) f).isSome = true :=
    List.find?_isSome.mpr ⟨p, hp, by simp [hpk]⟩
  obtain ⟨q, hq⟩ := Option.isSome_iff_exists.mp hs
  rw [hq]
  rfl

/-- C6 counterexample: a metadata mapping whose `tags` value is a number
makes `build_from_itad` raise `TypeError` (the tag comprehension iterates a
non-iterable), instead of degrading to defaults. -/
theorem builder_malformed_tags_raises_counterexample :
    build_from_itad [] (fun _ => 0) 2025 false []
      [("tags", MetaVal.num 3)] = Except.error PyExc.typeError := by
  rfl

/-- C6 amended: `build_from_itad` returns normally — degrading malformed
price, release-date and flag values to the documented defaults — for every
metadata mapping whose `tags` value (when present) survives the tag
comprehension, i.e. is a list of strings or a string; a non-iterable `tags`
value or a non-string tag raises `TypeError`/`AttributeError`. -/
theorem builder_total_when_tags_iterable (franchise_map : List (String × Rat))
    (log : Rat → Rat) (currentYear : Nat) (itadEnabled : Bool)
    (shops : List String) (game : Meta) (tags_lower : List String)
    (hts : tagsToLower (metaGetD game "tags" (MetaVal.list [])) =
      Except.ok tags_lower) :
    ∃ f, build_from_itad franchise_map log currentYear itadEnabled shops game =
      Except.ok f := by
  unfold build_from_itad
  rw [hts]
  exact ⟨_, rfl⟩

/-- Witness for C6 amended: the empty metadata mapping builds successfully. -/
theorem builder_total_when_tags_iterable_witness :
    ∃ f, build_from_itad [] (fun _ => 0) 2025 false [] [] = Except.ok f :=
  builder_total_when_tags_iterable [] (fun _ => 0) 2025 false [] [] [] rfl

/-- C5 counterexample: on the mapping `tags ↦ True`, `build_from_itad` raises
(`bool` is not iterable) rather than returning a schema-complete map, so the
schema-completeness claim does not hold for *every* input mapping. -/
theorem builder_schema_complete_counterexample :
    build_from_itad [] (fun _ => 0) 2025 false []
      [("tags", MetaVal.boolean true)] = Except.error PyExc.typeError := by
  rfl

/-- C5 amended: whenever `build_from_itad` returns (in particular on the
empty mapping, and on every mapping whose tags value is iterable into
strings), the returned feature map contains every key of the defensive
check list with a numeric value, and the missing-key warning list is empty —
the warning branch is never taken on a normal return. -/
theorem builder_schema_complete (franchise_map : List (String × Rat))
    (log : Rat → Rat) (currentYear : Nat) (itadEnabled : Bool)
    (shops : List String) (game : Meta) (f : List (String × Rat))
    (hok : build_from_itad franchise_map log currentYear itadEnabled shops game =
      Except.ok f) :
    (∀ k ∈ checkKeys, (featGet f k).isSome = true) ∧ missingKeysOf f = [] := by
  unfold build_from_itad at hok
  split at hok
  · exact Except.noConfusion hok
  · rename_i ts hts
    simp only [Except.ok.injEq] at hok
    subst hok
    have hkeys : (buildCore franchise_map log currentYear itadEnabled shops
        game ts).map Prod.fst =
        ["log_launch_price", "release_year", "release_month", "release_quarter",
         "release_weekday", "is_holiday_season", "is_summer_sale_window",
         "is_autumn_sale_window", "within_7d_of_steam_sale", "early_access",
         "mature", "Achievements", "is_multi_store_pc", "exclusive_steam",
         "is_multiplatform_refined", "is_cross_platform", "publisher_size_log",
         "publisher_size_bin__Small (≤5)", "publisher_size_bin__Medium (6–15)",
         "publisher_size_bin__Large (16–50)", "publisher_size_bin__Major (>50)",
         "developer_size_log", "developer_size_bin__Solo/Indie (≤2)",
         "developer_size_bin__Small (3–5)", "developer_size_bin__Mid (6–15)",
         "developer_size_bin__Large (>15)", "franchise_count_prev",
         "price_x_multiplatform", "publisher_x_multiplatform",
         "developer_x_multiplatform", "price_x_pubsize", "price_x_devsize",
         "genre_cluster_strategy_sim", "genre_cluster_mmo"] := rfl
    constructor
    · intro k hk
      apply featGet_isSome_of_mem_keys
      rw [hkeys]
      revert hk
      revert k
      decide
    · unfold missingKeysOf
      rw [hkeys]
      decide

/-- Witness for C5 amended at the empty metadata mapping. -/
theorem builder_schema_complete_witness :
    (∀ k ∈ checkKeys,
      (featGet (buildCore [] (fun _ => 0) 2025 false [] [] []) k).isSome = true) ∧
    missingKeysOf (buildCore [] (fun _ => 0) 2025 false [] [] []) = [] :=
  builder_schema_complete [] (fun _ => 0) 2025 false [] []
    (buildCore [] (fun _ => 0) 2025 false [] [] []) rfl

/-- C7: every feature map produced by `build_from_itad` has
`publisher_size_log` equal to `developer_size_log`, and the four developer
one-hot size bins equal to the four publisher one-hot size bins under the
documented renaming (Solo/Indie↔Small, Small↔Medium, Mid↔Large,
Large↔Major), because both groups come from `_estimate_size_from_price`
applied to the same price (feature_builder.py lines 137-152). -/
theorem builder_pub_dev_size_identical (franchise_map : List (String × Rat))
    (log : Rat → Rat) (currentYear : Nat) (itadEnabled : Bool)
    (shops : List String) (game : Meta) (f : List (String × Rat))
    (hok : build_from_itad franchise_map log currentYear itadEnabled shops game =
      Except.ok f) :
    featGet f "publisher_size_log" = featGet f "developer_size_log" ∧
    featGet f "publisher_size_bin__Small (≤5)" =
      featGet f "developer_size_bin__Solo/Indie (≤2)" ∧
    featGet f "publisher_size_bin__Medium (6–15)" =
      featGet f "developer_size_bin__Small (3–5)" ∧
    featGet f "publisher_size_bin__Large (16–50)" =
      featGet f "developer_size_bin__Mid (6–15)" ∧
    featGet f "publisher_size_bin__Major (>50)" =
      featGet f "developer_size_bin__Large (>15)" := by
  unfold build_from_itad at hok
  split at hok
  · exact Except.noConfusion hok
  · rename_i ts hts
    simp only [Except.ok.injEq] at hok
    subst hok
    refine ⟨?_, ?_, ?_, ?_, ?_⟩ <;> simp [buildCore, featGet]

/-- Witness for C7 at the empty metadata mapping. -/
theorem builder_pub_dev_size_identical_witness :
    featGet (buildCore [] (fun _ => 0) 2025 false [] [] [])
        "publisher_size_log" =
      featGet (buildCore [] (fun _ => 0) 2025 false [] [] [])
        "developer_size_log" ∧
    featGet (buildCore [] (fun _ => 0) 2025 false [] [] [])
        "publisher_size_bin__Small (≤5)" =
      featGet (buildCore [] (fun _ => 0) 2025 false [] [] [])
        "developer_size_bin__Solo/Indie (≤2)" ∧
    featGet (buildCore [] (fun _ => 0) 2025 false [] [] [])
        "publisher_size_bin__Medium (6–15)" =
      featGet (buildCore [] (fun _ => 0) 2025 false [] [] [])
        "developer_size_bin__Small (3–5)" ∧
    featGet (buildCore [] (fun _ => 0) 2025 false [] [] [])
        "publisher_size_bin__Large (16–50)" =
      featGet (buildCore [] (fun _ => 0) 2025 false [] [] [])
        "developer_size_bin__Mid (6–15)" ∧
    featGet (buildCore [] (fun _ => 0) 2025 false [] [] [])
        "publisher_size_bin__Major (>50)" =
      featGet (buildCore [] (fun _ => 0) 2025 false [] [] [])
        "developer_size_bin__Large (>15)" :=
  builder_pub_dev_size_identical [] (fun _ => 0) 2025 false [] []
    (buildCore [] (fun _ => 0) 2025 false [] [] []) rfl
